import Mathlib

/-!
Verification of the Markdown → Webflow CMS sync utility.

The embedding follows the sync script (the tab-indented variant of the
unnamed source file, whose `upsertWebflowItem`, `processFile`, `main`,
`kebab`, `trimToExcerpt`, `getAllMarkdown` and `getChangedMarkdown`
functions are cited by the claims) and the required-field pass of
`tools/validate-frontmatter.js`.  JavaScript dynamic values are embedded
as `JSValue`; the external HTTP store is a strategy function; the
markdown renderer, file reads and the system clock are external
collaborators, passed in as explicit arguments (`html`, `now`).
-/

/-- Embedding of a JavaScript value as it occurs in parsed YAML
frontmatter.  Array elements are kept as strings (the validator enforces
string-typed `tags` elements, the only array-valued field used). -/
inductive JSValue where
  | undefined
  | null
  | bool (b : Bool)
  | num (n : Int)
  | str (s : String)
  | arr (xs : List String)
deriving DecidableEq

/-- JavaScript truthiness of a value (`Boolean(v)` / use in a condition). -/
def truthy : JSValue → Bool
  | .undefined => false
  | .null => false
  | .bool b => b
  | .num n => n != 0
  | .str s => s != ""
  | .arr _ => true

/-- JavaScript `String(v)` coercion.  An array stringifies by joining its
elements with a comma. -/
def jsString : JSValue → String
  | .undefined => "undefined"
  | .null => "null"
  | .bool b => if b then "true" else "false"
  | .num n => toString n
  | .str s => s
  | .arr xs => String.intercalate "," xs

/-- Lower-casing of a string, character by character (the ASCII case
fold; the corpus keys and flag values are ASCII). -/
def lowerStr (s : String) : String :=
  String.mk (s.toList.map Char.toLower)

/-- Drops the characters satisfying `p` from both ends of a list. -/
def trimChars (p : Char → Bool) (l : List Char) : List Char :=
  ((l.dropWhile p).reverse.dropWhile p).reverse

/-- Whitespace trim from both ends of a string. -/
def jsTrim (s : String) : String :=
  String.mk (trimChars Char.isWhitespace s.toList)

/-- The regex test applied while normalizing string booleans in
`processFile`: a case-insensitive full match of `true`, `yes` or `1`. -/
def boolStrTrue (s : String) : Bool :=
  lowerStr s == "true" || lowerStr s == "yes" || lowerStr s == "1"

/-- The per-key body of the boolean normalization loop in `processFile`:
a string value is replaced by the result of the regex test; any other
value (including an absent key, modelled as `undefined`) is untouched. -/
def normalizeBool : JSValue → JSValue
  | .str s => .bool (boolStrTrue s)
  | v => v

/-- The frontmatter data bag (`fm.data` of gray-matter) restricted to the
keys the sync script and the validator read.  An absent key is
`undefined`.  `seoTitle` and `seoDescription` model the optional nested
`seo.title` and `seo.description` reached by optional chaining. -/
structure Frontmatter where
  title : JSValue := .undefined
  slug : JSValue := .undefined
  image : JSValue := .undefined
  date : JSValue := .undefined
  author : JSValue := .undefined
  link : JSValue := .undefined
  published : JSValue := .undefined
  push_to_webflow : JSValue := .undefined
  post_id : JSValue := .undefined
  tags : JSValue := .undefined
  excerpt : JSValue := .undefined
  seoTitle : JSValue := .undefined
  seoDescription : JSValue := .undefined
deriving DecidableEq

/-- The boolean-normalization loop of `processFile`, which rewrites the
`published` and `push_to_webflow` keys when their value is a string. -/
def normalizeFM (fm : Frontmatter) : Frontmatter :=
  { fm with
    published := normalizeBool fm.published,
    push_to_webflow := normalizeBool fm.push_to_webflow }

/-- Characters deleted by the first replace of `kebab`
(the class of quote and punctuation characters). -/
def isSlugStrip (c : Char) : Bool :=
  c = '\x27' || c = '"' || c = '.' || c = ',' || c = '!' || c = '?' ||
  c = '(' || c = ')' || c = '[' || c = ']'

/-- Lower-case ASCII letters and digits, the class kept by the second
replace of `kebab` (the input is already lower-cased there). -/
def isKebabAlnum (c : Char) : Bool :=
  ('a' ≤ c && c ≤ 'z') || ('0' ≤ c && c ≤ '9')

/-- Replacement of every maximal run of non-alphanumerics by one hyphen
(the global replace of `kebab`); the flag records whether the previous
character was folded into the current hyphen run. -/
def collapseDashAux : Bool → List Char → List Char
  | _, [] => []
  | prevDash, c :: rest =>
    if isKebabAlnum c then c :: collapseDashAux false rest
    else if prevDash then collapseDashAux true rest
    else '-' :: collapseDashAux true rest

/-- The `kebab` slug derivation of the sync script: trim, lower-case,
strip quote and punctuation characters, collapse non-alphanumeric runs to
one hyphen, strip leading and trailing hyphens. -/
def kebab (s : String) : String :=
  let t := (trimChars Char.isWhitespace s.toList).map Char.toLower
  let t := t.filter (fun c => !(isSlugStrip c))
  let t := collapseDashAux false t
  String.mk (trimChars (fun c => c = '-') t)

/-- The call `kebab(fm.title)` applied to a raw frontmatter value: the
source function begins with the coercion of `str || ""` to a string. -/
def kebabJS (v : JSValue) : String :=
  kebab (if truthy v then jsString v else "")

/-- First index at which `pat` occurs as a contiguous sublist, if any. -/
def findSubIdx (pat : List Char) : List Char → Option Nat
  | [] => if pat.isEmpty then some 0 else none
  | c :: rest =>
    if pat.isPrefixOf (c :: rest) then some 0
    else (findSubIdx pat rest).map (fun i => i + 1)

/-- Fuelled worker for the global lazy removal of an open/close delimited
block (the style and script replaces of `trimToExcerpt`): each match runs
from an occurrence of the opening text to the nearest following
occurrence of the closing text, and scanning resumes after the match. -/
def removeBlocksFuel (openT closeT : List Char) : Nat → List Char → List Char
  | 0, l => l
  | fuel + 1, l =>
    match findSubIdx openT l with
    | none => l
    | some i =>
      let afterOpen := l.drop (i + openT.length)
      match findSubIdx closeT afterOpen with
      | none => l
      | some j =>
        l.take i ++ removeBlocksFuel openT closeT fuel (afterOpen.drop (j + closeT.length))

/-- Global removal of open/close delimited blocks; every match consumes
at least one character, so `length + 1` units of fuel always suffice. -/
def removeBlocks (openT closeT : String) (l : List Char) : List Char :=
  removeBlocksFuel openT.toList closeT.toList (l.length + 1) l

/-- Fuelled worker replacing every markup tag (an opening angle bracket,
one or more non-closing characters, a closing angle bracket) by one
space, the third replace of `trimToExcerpt`.  When no closing bracket
remains the rest of the text has no further match and is kept. -/
def stripTagsFuel : Nat → List Char → List Char
  | 0, l => l
  | _ + 1, [] => []
  | fuel + 1, c :: rest =>
    if c = '<' then
      match findSubIdx ['>'] rest with
      | none => c :: rest
      | some 0 => c :: stripTagsFuel fuel rest
      | some (j + 1) => ' ' :: stripTagsFuel fuel (rest.drop (j + 2))
    else c :: stripTagsFuel fuel rest

/-- Tag stripping with always-sufficient fuel. -/
def stripTags (l : List Char) : List Char :=
  stripTagsFuel (l.length + 1) l

/-- Replacement of every whitespace run by a single space (the fourth
replace of `trimToExcerpt`). -/
def wsCollapseAux : Bool → List Char → List Char
  | _, [] => []
  | prevWs, c :: rest =>
    if c.isWhitespace then
      if prevWs then wsCollapseAux true rest
      else ' ' :: wsCollapseAux true rest
    else c :: wsCollapseAux false rest

/-- The `trimToExcerpt` derivation: drop style and script blocks, replace
tags by spaces, collapse whitespace, trim, and cut at `max` characters
with no word-boundary adjustment. -/
def trimToExcerpt (html : String) (max : Nat := 160) : String :=
  let t := removeBlocks "<style" "</style>" html.toList
  let t := removeBlocks "<script" "</script>" t
  let t := stripTags t
  let t := wsCollapseAux false t
  let t := trimChars Char.isWhitespace t
  String.mk (t.take max)

/-- Process environment of the script: the repository name and pinned
commit used to build raw content URLs. -/
structure Env where
  repo : Option String := none
  commitSha : String := "main"
deriving DecidableEq

/-- The case-insensitive absolute-URL test of `resolveToRawUrl`. -/
def isHttpUrl (u : String) : Bool :=
  "http://".toList.isPrefixOf (u.toList.map Char.toLower) ||
  "https://".toList.isPrefixOf (u.toList.map Char.toLower)

/-- The leading `./` or `/` strip applied by `resolveToRawUrl`. -/
def stripDotSlash (u : String) : String :=
  if "./".toList.isPrefixOf u.toList then String.mk (u.toList.drop 2)
  else if "/".toList.isPrefixOf u.toList then String.mk (u.toList.drop 1)
  else u

/-- The `resolveToRawUrl` helper: a falsy (empty) input and an absolute
URL pass through, as does everything when no repository is configured;
otherwise a commit-pinned raw content URL is built. -/
def resolveToRawUrl (env : Env) (u : String) : String :=
  if u = "" then u
  else if isHttpUrl u then u
  else
    match env.repo with
    | none => u
    | some repo =>
      "https://raw.githubusercontent.com/" ++ repo ++ "/" ++ env.commitSha ++ "/" ++ stripDotSlash u

/-- Models the JavaScript Date constructor followed by `toISOString`, an
external runtime builtin (like the markdown renderer, outside this
subsystem).  The model keeps the printed form of the input value; only
its determinism as a function matters for the claims. -/
def jsDateISO (v : JSValue) : String :=
  jsString v

/-- The `fieldData` object sent to the store.  A field the script adds
only behind a truthiness guard is an `Option`; the guards on the
`FIELD_IDS` constants themselves are always true (every slug in the
table is a non-empty string) and are dropped.  `postBody` embeds the
body field, `postSummary` the excerpt field. -/
structure FieldData where
  name : String
  slug : String
  postBody : String
  mainImage : Option String := none
  publishDate : String
  author : Option String := none
  externalLink : Option String := none
  isPublished : Bool
  pushToWebflow : Bool
  postId : Option String := none
  tags : Option String := none
  postSummary : Option String := none
  seoTitle : Option JSValue := none
  seoDescription : Option JSValue := none
deriving DecidableEq

/-- Inclusion guard `if (FIELD_IDS.x && value)` for an optional string
value: present and non-empty. -/
def includeIfTruthy : Option String → Option String
  | some s => if s = "" then none else some s
  | none => none

/-- The field derivations of `upsertWebflowItem` (name, slug, main
image, publish date, author, link, tags, excerpt, SEO fields) and the
assembly of `fieldData`.  `html` is the rendered body handed in by
`processFile`; `now` is the ISO string the clock would print, used when
no `date` field is present. -/
def buildFieldData (env : Env) (fm : Frontmatter) (html now : String) : FieldData :=
  { name := jsString fm.title
    slug := if truthy fm.slug then jsString fm.slug else kebabJS fm.title
    postBody := html
    mainImage := includeIfTruthy
      (if truthy fm.image then some (resolveToRawUrl env (jsString fm.image)) else none)
    publishDate := if truthy fm.date then jsDateISO fm.date else now
    author := includeIfTruthy
      (if truthy fm.author then some (jsString fm.author) else none)
    externalLink := includeIfTruthy
      (if truthy fm.link then some (jsString fm.link) else none)
    isPublished := truthy fm.published
    pushToWebflow := true
    postId := if truthy fm.post_id then some (jsString fm.post_id) else none
    tags := includeIfTruthy
      (match fm.tags with
       | .arr xs => some (String.intercalate ", " xs)
       | v => if truthy v then some (jsString v) else none)
    postSummary :=
      (fun e => if e = "" then none else some e)
        (if truthy fm.excerpt then jsString fm.excerpt else trimToExcerpt html 160)
    seoTitle := if truthy fm.seoTitle then some fm.seoTitle else none
    seoDescription := if truthy fm.seoDescription then some fm.seoDescription else none }

/-- The request body of `upsertWebflowItem`: `isArchived` is the literal
`false`, `isDraft` negates the coerced `published` flag. -/
structure Payload where
  isArchived : Bool
  isDraft : Bool
  fieldData : FieldData
deriving DecidableEq

/-- Assembly of the request body from the frontmatter. -/
def mkPayload (env : Env) (fm : Frontmatter) (html now : String) : Payload :=
  { isArchived := false
    isDraft := !(truthy fm.published)
    fieldData := buildFieldData env fm html now }

/-- The capability surface of the external store client: create, update
by identifier, and read by identifier.  The script only ever issues the
first two (POST and PATCH on the items endpoint). -/
inductive StoreCall where
  | createRecord (payload : Payload)
  | updateRecord (id : String) (payload : Payload)
  | getRecord (id : String)
deriving DecidableEq

/-- The JSON body of a successful store response, restricted to the
fields the script reads.  `itemId` models the nested `item.id` probed as
a fallback shape. -/
structure StoreResp where
  id : Option String := none
  itemId : Option String := none
  createdOn : Option String := none
  lastUpdated : Option String := none
deriving DecidableEq

/-- A non-ok HTTP response: status code and body text. -/
structure HttpErr where
  status : Nat
  text : String
deriving DecidableEq

/-- A store strategy: what the remote CMS answers to each call. -/
def Store : Type :=
  StoreCall → Except HttpErr StoreResp

/-- JavaScript `a || b` over two optional strings (an empty string is
falsy), used for `data?.id || data?.item?.id`. -/
def jsOrStr : Option String → Option String → Option String
  | some s, b => if s = "" then b else some s
  | none, b => b

/-- Result of one `upsertWebflowItem` call: the early `return` on the
sync-control flag, the dry-run log (carrying the derived slug and
whether a post identifier is present), a successful update or create, or
a thrown `Error` carried as its message string. -/
inductive UpsertOutcome where
  | skipped
  | planned (slug : String) (hasPostId : Bool)
  | updated (data : StoreResp)
  | created (data : StoreResp) (itemId : Option String)
  | threw (msg : String)
deriving DecidableEq

/-- The `upsertWebflowItem` reconciliation step.  The source computes
`pushFlag = fm.push_to_webflow !== false` and returns early when it is
false, so the skip fires exactly when the value is the boolean `false`;
a missing `title` throws; under dry run nothing is sent; otherwise a
truthy `post_id` selects a PATCH on that identifier and its absence a
POST, and a non-ok response throws an error embedding the HTTP status
and body.  The returned list is the store calls issued, in order.  The
identifier write-back dispatch after a create is an external, non-fatal
side effect and issues no store call. -/
def upsertWebflowItem (env : Env) (store : Store) (fm : Frontmatter)
    (html filePath : String) (dryRun : Bool) (now : String) :
    UpsertOutcome × List StoreCall :=
  if fm.push_to_webflow = JSValue.bool false then
    (.skipped, [])
  else if truthy fm.title = false then
    (.threw ("Missing required \x27title\x27 in " ++ filePath), [])
  else if dryRun then
    (.planned (buildFieldData env fm html now).slug (truthy fm.post_id), [])
  else if truthy fm.post_id then
    match store (.updateRecord (jsString fm.post_id) (mkPayload env fm html now)) with
    | .error e =>
      (.threw ("Webflow update failed (" ++ toString e.status ++ "): " ++ e.text),
       [.updateRecord (jsString fm.post_id) (mkPayload env fm html now)])
    | .ok d =>
      (.updated d, [.updateRecord (jsString fm.post_id) (mkPayload env fm html now)])
  else
    match store (.createRecord (mkPayload env fm html now)) with
    | .error e =>
      (.threw ("Webflow create failed (" ++ toString e.status ++ "): " ++ e.text),
       [.createRecord (mkPayload env fm html now)])
    | .ok d =>
      (.created d (jsOrStr d.id d.itemId), [.createRecord (mkPayload env fm html now)])

/-- The `processFile` step for one document: normalize the string
booleans, then reconcile.  Reading the file, rewriting image links and
rendering markdown are external; `html` is the rendered body. -/
def processDoc (env : Env) (store : Store) (filePath : String)
    (fm : Frontmatter) (html : String) (dryRun : Bool) (now : String) :
    UpsertOutcome × List StoreCall :=
  upsertWebflowItem env store (normalizeFM fm) html filePath dryRun now

/-- The per-file loop of `main`: each document is processed inside its
own try/catch, a thrown error only sets the process exit code, and the
loop continues with the next file. -/
def runDocs (env : Env) (store : Store)
    (docs : List (String × Frontmatter × String)) (dryRun : Bool) (now : String) :
    List (String × UpsertOutcome × List StoreCall) :=
  docs.map (fun d => (d.1, processDoc env store d.1 d.2.1 d.2.2 dryRun now))

/-- A directory tree entry, the corpus model for the file walks. -/
inductive FsEntry where
  | file (name : String)
  | dir (name : String) (children : List FsEntry)

mutual

/-- One step of the recursive walk of `getAllMarkdown`: a file is kept
when its joined path ends in the markdown extension, a directory is
walked in place. -/
def walkEntry (pre : String) : FsEntry → List String
  | .file n =>
    if ".md".toList.isSuffixOf (pre ++ "/" ++ n).toList then [pre ++ "/" ++ n] else []
  | .dir n cs => walkList (pre ++ "/" ++ n) cs

/-- Walk of a directory listing in readdir order. -/
def walkList (pre : String) : List FsEntry → List String
  | [] => []
  | e :: rest => walkEntry pre e ++ walkList pre rest

end

/-- `getAllMarkdown`: every markdown file under the posts directory, or
the empty list when the directory does not exist (`none`). -/
def getAllMarkdown : Option (List FsEntry) → List String
  | some es => walkList "posts" es
  | none => []

/-- `getChangedMarkdown`: when the git diff against the previous
revision succeeds its output is split into lines, trimmed and filtered
of empties; when it fails (for example there is no prior revision on a
first-ever run) the function falls back to all files. -/
def getChangedMarkdown (root : Option (List FsEntry)) : Option String → List String
  | some out => ((out.splitOn "\n").map (fun s => jsTrim s)).filter (fun s => s ≠ "")
  | none => getAllMarkdown root

/-- The change-set selection of `main`: the `--all` flag selects the
full corpus, otherwise the delta resolution runs. -/
def resolveFiles (allFlag : Bool) (root : Option (List FsEntry)) (diff : Option String) : List String :=
  if allFlag then getAllMarkdown root else getChangedMarkdown root diff

/-- The required keys of the validator tool. -/
def requiredFields : List String :=
  ["title", "date", "push_to_webflow"]

/-- Key lookup on the frontmatter bag, for the validator loops. -/
def fmLookup (fm : Frontmatter) (k : String) : JSValue :=
  if k = "title" then fm.title
  else if k = "date" then fm.date
  else if k = "push_to_webflow" then fm.push_to_webflow
  else if k = "slug" then fm.slug
  else if k = "image" then fm.image
  else if k = "author" then fm.author
  else if k = "link" then fm.link
  else if k = "published" then fm.published
  else if k = "post_id" then fm.post_id
  else if k = "tags" then fm.tags
  else if k = "excerpt" then fm.excerpt
  else .undefined

/-- The required-field pass of `validateFile` in the validator tool: it
iterates over every required key and emits one failure message per
missing key, without stopping at the first. -/
def validatorMissingMsgs (fm : Frontmatter) : List String :=
  (requiredFields.filter (fun f => decide (fmLookup fm f = JSValue.undefined))).map
    (fun f => "Missing required field \x27" ++ f ++ "\x27")

/-- Contiguous substring test over character lists. -/
def subList (pat : List Char) : List Char → Bool
  | [] => pat.isEmpty
  | c :: rest => pat.isPrefixOf (c :: rest) || subList pat rest

/-- Contiguous substring test over strings. -/
def containsSub (pat s : String) : Bool :=
  subList pat.toList s.toList

/-- First payload-carrying component of a store call, if any. -/
def payloadOf : StoreCall → Option Payload
  | .createRecord p => some p
  | .updateRecord _ p => some p
  | .getRecord _ => none

/-! ### Shared helper lemmas and concrete fixtures -/

/-- A store that answers every call successfully with an empty body. -/
def okStore : Store := fun _ => Except.ok {}

/-- A store that fails every call with the given HTTP error. -/
def errStore (e : HttpErr) : Store := fun _ => Except.error e

/-- A document with a title whose derived slug is `modern-web-performance`. -/
def fmA : Frontmatter := { title := JSValue.str "Modern Web Performance!" }

/-- A distinct document whose derived slug collides with that of `fmA`. -/
def fmB : Frontmatter := { title := JSValue.str "modern web PERFORMANCE" }

/-- A document carrying an explicit cross-system identifier. -/
def fmPid : Frontmatter := { title := JSValue.str "Hello", post_id := JSValue.str "abc123" }

/-- A fixed clock reading for concrete runs. -/
def now0 : String := "2025-01-01T00:00:00.000Z"

/-- On a syncable record without an identifier the engine reduces to the
create branch. -/
theorem upsert_create_eq (env : Env) (store : Store) (fm : Frontmatter)
    (html p now : String)
    (hpush : fm.push_to_webflow ≠ JSValue.bool false)
    (htitle : truthy fm.title = true)
    (hpost : truthy fm.post_id = false) :
    upsertWebflowItem env store fm html p false now
      = match store (.createRecord (mkPayload env fm html now)) with
        | .error e =>
          (.threw ("Webflow create failed (" ++ toString e.status ++ "): " ++ e.text),
           [.createRecord (mkPayload env fm html now)])
        | .ok d =>
          (.created d (jsOrStr d.id d.itemId), [.createRecord (mkPayload env fm html now)]) := by
  unfold upsertWebflowItem
  rw [if_neg hpush, if_neg (by simp [htitle]), if_neg (by simp), if_neg (by simp [hpost])]

/-- On a syncable record with an identifier the engine reduces to the
update branch. -/
theorem upsert_update_eq (env : Env) (store : Store) (fm : Frontmatter)
    (html p now : String)
    (hpush : fm.push_to_webflow ≠ JSValue.bool false)
    (htitle : truthy fm.title = true)
    (hpost : truthy fm.post_id = true) :
    upsertWebflowItem env store fm html p false now
      = match store (.updateRecord (jsString fm.post_id) (mkPayload env fm html now)) with
        | .error e =>
          (.threw ("Webflow update failed (" ++ toString e.status ++ "): " ++ e.text),
           [.updateRecord (jsString fm.post_id) (mkPayload env fm html now)])
        | .ok d =>
          (.updated d, [.updateRecord (jsString fm.post_id) (mkPayload env fm html now)]) := by
  unfold upsertWebflowItem
  rw [if_neg hpush, if_neg (by simp [htitle]), if_neg (by simp), if_pos (by simp [hpost])]

/-- Whatever the store answers, the skip outcome only arises from the
sync-control flag being the boolean false. -/
theorem upsert_not_skipped (env : Env) (store : Store) (fm : Frontmatter)
    (html p : String) (dryRun : Bool) (now : String)
    (hpush : fm.push_to_webflow ≠ JSValue.bool false) :
    (upsertWebflowItem env store fm html p dryRun now).1 ≠ .skipped := by
  unfold upsertWebflowItem
  rw [if_neg hpush]
  split_ifs
  · simp
  · simp
  · cases store (.updateRecord (jsString fm.post_id) (mkPayload env fm html now)) <;> simp
  · cases store (.createRecord (mkPayload env fm html now)) <;> simp

/-- Every store call the engine issues carries the one payload built for
the record. -/
theorem upsert_trace_payload (env : Env) (store : Store) (fm : Frontmatter)
    (html p : String) (dryRun : Bool) (now : String) (c : StoreCall)
    (hc : c ∈ (upsertWebflowItem env store fm html p dryRun now).2) :
    payloadOf c = some (mkPayload env fm html now) := by
  unfold upsertWebflowItem at hc
  split_ifs at hc
  · simp at hc
  · simp at hc
  · simp at hc
  · split at hc <;> simp_all [payloadOf]
  · split at hc <;> simp_all [payloadOf]

/-! ### Claim C1 -/

/-- C1: reconciliation is decided solely by the presence of the
cross-system identifier.  For a syncable record without a truthy
`post_id` the engine issues exactly one `createRecord` call and no other
store call (in particular no lookup); with a truthy `post_id` it issues
exactly one `updateRecord` on that identifier; and for two distinct
documents with colliding derived slugs and no identifier, reconciling
both produces two `created` outcomes backed by two separate
`createRecord` calls, never a merge into one. -/
theorem claimC1_identifier_decides_create_or_update
    (env : Env) (store : Store) (fmN fmU fm2 : Frontmatter)
    (htmlN htmlU html2 pN pU p2 now : String) (r1 r2 : StoreResp)
    (hpushN : fmN.push_to_webflow ≠ JSValue.bool false)
    (htitleN : truthy fmN.title = true)
    (hpostN : truthy fmN.post_id = false)
    (hpushU : fmU.push_to_webflow ≠ JSValue.bool false)
    (htitleU : truthy fmU.title = true)
    (hpostU : truthy fmU.post_id = true)
    (hpush2 : fm2.push_to_webflow ≠ JSValue.bool false)
    (htitle2 : truthy fm2.title = true)
    (hpost2 : truthy fm2.post_id = false)
    (hdistinct : fmN ≠ fm2)
    (hslug : kebabJS fmN.title = kebabJS fm2.title)
    (hok1 : store (.createRecord (mkPayload env fmN htmlN now)) = Except.ok r1)
    (hok2 : store (.createRecord (mkPayload env fm2 html2 now)) = Except.ok r2) :
    (upsertWebflowItem env store fmN htmlN pN false now).2
        = [StoreCall.createRecord (mkPayload env fmN htmlN now)]
    ∧ (upsertWebflowItem env store fmU htmlU pU false now).2
        = [StoreCall.updateRecord (jsString fmU.post_id) (mkPayload env fmU htmlU now)]
    ∧ (upsertWebflowItem env store fmN htmlN pN false now).1
        = .created r1 (jsOrStr r1.id r1.itemId)
    ∧ (upsertWebflowItem env store fm2 html2 p2 false now).1
        = .created r2 (jsOrStr r2.id r2.itemId)
    ∧ (upsertWebflowItem env store fm2 html2 p2 false now).2
        = [StoreCall.createRecord (mkPayload env fm2 html2 now)] := by
  refine ⟨?_, ?_, ?_, ?_, ?_⟩
  · rw [upsert_create_eq env store fmN htmlN pN now hpushN htitleN hpostN, hok1]
  · rw [upsert_update_eq env store fmU htmlU pU now hpushU htitleU hpostU]
    cases store (.updateRecord (jsString fmU.post_id) (mkPayload env fmU htmlU now)) <;> rfl
  · rw [upsert_create_eq env store fmN htmlN pN now hpushN htitleN hpostN, hok1]
  · rw [upsert_create_eq env store fm2 html2 p2 now hpush2 htitle2 hpost2, hok2]
  · rw [upsert_create_eq env store fm2 html2 p2 now hpush2 htitle2 hpost2, hok2]

/-- Witness for C1 at concrete inputs: an unbound document, a bound one,
and a second unbound document whose derived slug collides with the
first. -/
theorem claimC1_witness :
    (upsertWebflowItem {} okStore fmA "" "posts/a.md" false now0).2
        = [StoreCall.createRecord (mkPayload {} fmA "" now0)]
    ∧ (upsertWebflowItem {} okStore fmPid "" "posts/p.md" false now0).2
        = [StoreCall.updateRecord (jsString fmPid.post_id) (mkPayload {} fmPid "" now0)]
    ∧ (upsertWebflowItem {} okStore fmA "" "posts/a.md" false now0).1
        = .created {} none
    ∧ (upsertWebflowItem {} okStore fmB "" "posts/b.md" false now0).1
        = .created {} none
    ∧ (upsertWebflowItem {} okStore fmB "" "posts/b.md" false now0).2
        = [StoreCall.createRecord (mkPayload {} fmB "" now0)] :=
  claimC1_identifier_decides_create_or_update {} okStore fmA fmPid fmB
    "" "" "" "posts/a.md" "posts/p.md" "posts/b.md" now0 {} {}
    (by decide) (by decide) (by decide)
    (by decide) (by decide) (by decide)
    (by decide) (by decide) (by decide)
    (by decide) (by decide) rfl rfl

/-! ### Claim C2 -/

/-- C2 counterexample: a create that fails with the transient rate-limit
class (HTTP 429) surfaces immediately as a thrown error after exactly
one store call — the engine performs no retry at all, refuting the
claimed bounded-retry-with-backoff behaviour. -/
theorem claimC2_counterexample :
    (upsertWebflowItem {} (errStore ⟨429, "Too Many Requests"⟩)
        { title := JSValue.str "A" } "" "posts/a.md" false now0).1
      = .threw "Webflow create failed (429): Too Many Requests"
    ∧ (upsertWebflowItem {} (errStore ⟨429, "Too Many Requests"⟩)
        { title := JSValue.str "A" } "" "posts/a.md" false now0).2.length = 1 :=
  ⟨rfl, rfl⟩

/-- C2 amended: the engine makes exactly one store attempt per document
and surfaces every store failure — transient or not — immediately as a
thrown error embedding the HTTP status and response text; there is no
retry or backoff for any error class. -/
theorem claimC2_amended_single_attempt_no_retry
    (env : Env) (store : Store) (fmC fmU : Frontmatter)
    (htmlC htmlU pC pU now : String) (e1 e2 : HttpErr)
    (hpushC : fmC.push_to_webflow ≠ JSValue.bool false)
    (htitleC : truthy fmC.title = true)
    (hpostC : truthy fmC.post_id = false)
    (hfailC : store (.createRecord (mkPayload env fmC htmlC now)) = Except.error e1)
    (hpushU : fmU.push_to_webflow ≠ JSValue.bool false)
    (htitleU : truthy fmU.title = true)
    (hpostU : truthy fmU.post_id = true)
    (hfailU : store (.updateRecord (jsString fmU.post_id) (mkPayload env fmU htmlU now))
        = Except.error e2) :
    (upsertWebflowItem env store fmC htmlC pC false now).1
      = .threw ("Webflow create failed (" ++ toString e1.status ++ "): " ++ e1.text)
    ∧ (upsertWebflowItem env store fmC htmlC pC false now).2.length = 1
    ∧ (upsertWebflowItem env store fmU htmlU pU false now).1
      = .threw ("Webflow update failed (" ++ toString e2.status ++ "): " ++ e2.text)
    ∧ (upsertWebflowItem env store fmU htmlU pU false now).2.length = 1 := by
  rw [upsert_create_eq env store fmC htmlC pC now hpushC htitleC hpostC, hfailC,
      upsert_update_eq env store fmU htmlU pU now hpushU htitleU hpostU, hfailU]
  exact ⟨rfl, rfl, rfl, rfl⟩

/-- Witness for the amended C2 at a concrete server-error failure. -/
theorem claimC2_witness :
    (upsertWebflowItem {} (errStore ⟨500, "Internal Server Error"⟩) fmA "" "posts/a.md" false now0).1
      = .threw ("Webflow create failed (" ++ toString (500 : Nat) ++ "): " ++ "Internal Server Error")
    ∧ (upsertWebflowItem {} (errStore ⟨500, "Internal Server Error"⟩) fmA "" "posts/a.md" false now0).2.length = 1
    ∧ (upsertWebflowItem {} (errStore ⟨500, "Internal Server Error"⟩) fmPid "" "posts/p.md" false now0).1
      = .threw ("Webflow update failed (" ++ toString (500 : Nat) ++ "): " ++ "Internal Server Error")
    ∧ (upsertWebflowItem {} (errStore ⟨500, "Internal Server Error"⟩) fmPid "" "posts/p.md" false now0).2.length = 1 :=
  claimC2_amended_single_attempt_no_retry {} (errStore ⟨500, "Internal Server Error"⟩)
    fmA fmPid "" "" "posts/a.md" "posts/p.md" now0
    ⟨500, "Internal Server Error"⟩ ⟨500, "Internal Server Error"⟩
    (by decide) (by decide) (by decide) rfl
    (by decide) (by decide) (by decide) rfl

/-! ### Claim C3 -/

/-- C3 counterexample: a bound record whose update is answered with the
not-found class (HTTP 404) yields a thrown error whose message is the
generic update-failure text with the status embedded; no distinguishable
`StaleIdentifier` error kind exists anywhere in the surfaced value. -/
theorem claimC3_counterexample :
    (upsertWebflowItem {} (errStore ⟨404, "Item not found"⟩) fmPid "" "posts/p.md" false now0).1
      = .threw "Webflow update failed (404): Item not found"
    ∧ containsSub "StaleIdentifier" "Webflow update failed (404): Item not found" = false :=
  ⟨rfl, rfl⟩

/-- C3 amended: an update answered with the not-found class surfaces as
a `Failed` (thrown) outcome whose generic message embeds the HTTP 404
status and response text — there is no dedicated `StaleIdentifier`
kind — and no fallback `createRecord` is attempted: the only store call
of the attempt is the one update. -/
theorem claimC3_amended_notfound_no_fallback_create
    (env : Env) (store : Store) (fm : Frontmatter)
    (html p now t : String)
    (hpush : fm.push_to_webflow ≠ JSValue.bool false)
    (htitle : truthy fm.title = true)
    (hpost : truthy fm.post_id = true)
    (hnf : store (.updateRecord (jsString fm.post_id) (mkPayload env fm html now))
        = Except.error ⟨404, t⟩) :
    (upsertWebflowItem env store fm html p false now).1
      = .threw ("Webflow update failed (" ++ toString (404 : Nat) ++ "): " ++ t)
    ∧ (upsertWebflowItem env store fm html p false now).2
      = [StoreCall.updateRecord (jsString fm.post_id) (mkPayload env fm html now)] := by
  rw [upsert_update_eq env store fm html p now hpush htitle hpost, hnf]
  exact ⟨rfl, rfl⟩

/-- Witness for the amended C3 at the concrete stale-identifier input. -/
theorem claimC3_witness :
    (upsertWebflowItem {} (errStore ⟨404, "Item not found"⟩) fmPid "" "posts/p.md" false now0).1
      = .threw ("Webflow update failed (" ++ toString (404 : Nat) ++ "): " ++ "Item not found")
    ∧ (upsertWebflowItem {} (errStore ⟨404, "Item not found"⟩) fmPid "" "posts/p.md" false now0).2
      = [StoreCall.updateRecord (jsString fmPid.post_id) (mkPayload {} fmPid "" now0)] :=
  claimC3_amended_notfound_no_fallback_create {} (errStore ⟨404, "Item not found"⟩)
    fmPid "" "posts/p.md" now0 "Item not found"
    (by decide) (by decide) (by decide) rfl

/-! ### Claim C4 -/

/-- C4 counterexample: mapping a document missing both `title` and
`date` throws a single error that names only `title`; the message does
not mention `date` at all, refuting fail-with-all-errors-at-once. -/
theorem claimC4_counterexample :
    (upsertWebflowItem {} okStore {} "" "posts/x.md" false now0).1
      = .threw "Missing required \x27title\x27 in posts/x.md"
    ∧ containsSub "date" "Missing required \x27title\x27 in posts/x.md" = false :=
  ⟨rfl, rfl⟩

/-- C4 amended: the sync mapping validates only `title`, throwing one
single-field error when it is missing; a missing `date` is not a mapping
error at all (the publish date silently defaults to the clock), so a
record with a title and no date is still created; the standalone
validator tool is the component that reports every missing required
field in one pass, one message per field, including both `title` and
`date` for a document missing both. -/
theorem claimC4_amended_title_only_sync_validation
    (env : Env) (store : Store) (fm0 fmD : Frontmatter)
    (html0 htmlD p0 pD now : String) (r : StoreResp)
    (h0t : truthy fm0.title = false)
    (h0push : fm0.push_to_webflow ≠ JSValue.bool false)
    (h0tu : fm0.title = JSValue.undefined)
    (h0du : fm0.date = JSValue.undefined)
    (hDt : truthy fmD.title = true)
    (hDpush : fmD.push_to_webflow ≠ JSValue.bool false)
    (hDdate : fmD.date = JSValue.undefined)
    (hDpost : truthy fmD.post_id = false)
    (hok : store (.createRecord (mkPayload env fmD htmlD now)) = Except.ok r) :
    upsertWebflowItem env store fm0 html0 p0 false now
      = (.threw ("Missing required \x27title\x27 in " ++ p0), [])
    ∧ "Missing required field \x27title\x27" ∈ validatorMissingMsgs fm0
    ∧ "Missing required field \x27date\x27" ∈ validatorMissingMsgs fm0
    ∧ (upsertWebflowItem env store fmD htmlD pD false now).1
      = .created r (jsOrStr r.id r.itemId) := by
  refine ⟨?_, ?_, ?_, ?_⟩
  · unfold upsertWebflowItem
    rw [if_neg h0push, if_pos (by simp [h0t])]
  · exact List.mem_map.mpr ⟨"title",
      List.mem_filter.mpr ⟨by decide, by simp [fmLookup, h0tu]⟩, rfl⟩
  · exact List.mem_map.mpr ⟨"date",
      List.mem_filter.mpr ⟨by decide, by simp [fmLookup, h0du]⟩, rfl⟩
  · rw [upsert_create_eq env store fmD htmlD pD now hDpush hDt hDpost, hok]

/-- Witness for the amended C4: the empty document and a date-less
titled document against an accepting store. -/
theorem claimC4_witness :
    upsertWebflowItem {} okStore {} "" "posts/x.md" false now0
      = (.threw ("Missing required \x27title\x27 in " ++ "posts/x.md"), [])
    ∧ "Missing required field \x27title\x27" ∈ validatorMissingMsgs {}
    ∧ "Missing required field \x27date\x27" ∈ validatorMissingMsgs {}
    ∧ (upsertWebflowItem {} okStore { title := JSValue.str "Hello" } "" "posts/h.md" false now0).1
      = .created {} none :=
  claimC4_amended_title_only_sync_validation {} okStore {} { title := JSValue.str "Hello" }
    "" "" "posts/x.md" "posts/h.md" now0 {}
    (by decide) (by decide) rfl rfl
    (by decide) (by decide) rfl (by decide) rfl

/-! ### Claim C5 -/

/-- C5: a document whose sync-control flag is explicitly false
short-circuits to the skipped outcome before any store call: the call
trace is empty, so the remote state is untouched for that document. -/
theorem claimC5_skip_before_store
    (env : Env) (store : Store) (fm : Frontmatter)
    (html p : String) (dryRun : Bool) (now : String)
    (h : fm.push_to_webflow = JSValue.bool false) :
    processDoc env store p fm html dryRun now = (.skipped, []) := by
  simp [processDoc, normalizeFM, normalizeBool, upsertWebflowItem, h]

/-- Witness for C5 at a concrete document with the flag set to false. -/
theorem claimC5_witness :
    processDoc {} okStore "posts/a.md"
      { title := JSValue.str "A", push_to_webflow := JSValue.bool false } "" false now0
      = (.skipped, []) :=
  claimC5_skip_before_store {} okStore
    { title := JSValue.str "A", push_to_webflow := JSValue.bool false }
    "" "posts/a.md" false now0 rfl

/-! ### Claim C6 -/

/-- C6 counterexample: with a store that rejects every call as
unauthorized (the auth-error class, HTTP 401), the first document fails
with the auth error and the second document is still attempted — its
outcome is produced and the store receives a call for it — refuting the
claim that an auth-class error aborts the entire run. -/
theorem claimC6_counterexample :
    (runDocs {} (errStore ⟨401, "Unauthorized"⟩)
        [("posts/a.md", { title := JSValue.str "A" }, ""),
         ("posts/b.md", { title := JSValue.str "B" }, "")] false now0).map
      (fun x => (x.1, x.2.1, x.2.2.length))
      = [("posts/a.md", .threw "Webflow create failed (401): Unauthorized", 1),
         ("posts/b.md", .threw "Webflow create failed (401): Unauthorized", 1)] :=
  rfl

/-- C6 amended: no per-document error of any class halts the run.  Each
document in the list is processed independently of every earlier
document and its outcome (the run over any split decomposes into the
runs over the parts), and an absent corpus directory yields an empty
change set rather than a run-fatal resolution error; the only run-level
abort in the script is the environment-variable check before the loop
starts. -/
theorem claimC6_amended_no_error_halts_run
    (env : Env) (store : Store) (docs1 docs2 : List (String × Frontmatter × String))
    (d : String × Frontmatter × String) (dryRun : Bool) (now : String) :
    runDocs env store (docs1 ++ d :: docs2) dryRun now
      = runDocs env store docs1 dryRun now
        ++ (d.1, processDoc env store d.1 d.2.1 d.2.2 dryRun now)
          :: runDocs env store docs2 dryRun now
    ∧ getAllMarkdown none = [] := by
  exact ⟨by simp [runDocs], rfl⟩

/-! ### Claim C7 -/

/-- C7 counterexample: a document whose `push_to_webflow` value is the
number `0` — a non-boolean value the claim says must coerce to `false` —
is not skipped: it is synced, and the boolean-typed push-to-webflow
destination field in the issued payload is `true`, not `false`. -/
theorem claimC7_counterexample :
    (processDoc {} okStore "posts/a.md"
        { title := JSValue.str "A", push_to_webflow := JSValue.num 0 } "" false now0).1
      ≠ .skipped
    ∧ ((processDoc {} okStore "posts/a.md"
          { title := JSValue.str "A", push_to_webflow := JSValue.num 0 } "" false now0).2.map
        (fun c => (payloadOf c).map (fun pl => pl.fieldData.pushToWebflow)))
      = [some true] := by
  exact ⟨by decide, rfl⟩

/-- C7 amended: the case-insensitive string table `true`/`yes`/`1` is
applied to both boolean source fields (`published` and
`push_to_webflow`), any other string coercing to false.  The coerced
`published` value reaches the is-published destination field through
JavaScript truthiness, so the number 0 and an absent field do yield
false there.  The push-to-webflow destination field, however, is not
derived from the source value at all — it is the constant `true` on
every synced record — and a non-string source value is never coerced:
only the exact boolean `false` (possibly produced by the string
normalization) suppresses the sync. -/
theorem claimC7_amended_coercion_table
    (env : Env) (fm : Frontmatter) (html now s : String) :
    ((normalizeFM { fm with published := JSValue.str s }).published = JSValue.bool true
       ↔ (lowerStr s = "true" ∨ lowerStr s = "yes" ∨ lowerStr s = "1"))
    ∧ ((normalizeFM { fm with push_to_webflow := JSValue.str s }).push_to_webflow
         = JSValue.bool true
       ↔ (lowerStr s = "true" ∨ lowerStr s = "yes" ∨ lowerStr s = "1"))
    ∧ (mkPayload env fm html now).fieldData.isPublished = truthy fm.published
    ∧ (mkPayload env fm html now).fieldData.pushToWebflow = true := by
  refine ⟨?_, ?_, rfl, rfl⟩ <;>
    (simp [normalizeFM, normalizeBool, boolStrTrue]; tauto)

/-! ### Claim C8 -/

/-- C8: resolving the change set in delta mode when the diff against the
prior revision is unavailable (no prior revision, first-ever run) yields
exactly the locator set of all mode over the same corpus state: the
resolver falls back to the full walk rather than returning nothing or
erroring. -/
theorem claimC8_delta_fallback_equals_all
    (root : Option (List FsEntry)) (diff : Option String) :
    resolveFiles false root none = resolveFiles true root diff :=
  rfl

/-! ### Claim C9 -/

/-- C9 counterexample: the field mapper consults the current clock when
the document has no `date` field — mapping the same document and body at
two different instants produces different records (the publish-date
field differs), refuting independence from the current time. -/
theorem claimC9_counterexample :
    buildFieldData {} { title := JSValue.str "A" } "" "2025-01-01T00:00:00.000Z"
      ≠ buildFieldData {} { title := JSValue.str "A" } "" "2026-01-01T00:00:00.000Z" := by
  decide

/-- C9 amended: the field mapper is a deterministic pure function of the
document, the rendered body and the clock reading; whenever the
document's `date` field is present (truthy), the result is independent
of the clock, so the claimed determinism holds for dated documents.  A
document without a date derives its publish date from the current time,
which is the only time dependence. -/
theorem claimC9_amended_time_independent_when_dated
    (env : Env) (fm : Frontmatter) (html now1 now2 : String)
    (h : truthy fm.date = true) :
    buildFieldData env fm html now1 = buildFieldData env fm html now2 := by
  simp [buildFieldData, h]

/-- Witness for the amended C9 at a dated document and two distinct
clock readings. -/
theorem claimC9_witness :
    buildFieldData {} { title := JSValue.str "A", date := JSValue.str "2025-01-01" } "" "X"
      = buildFieldData {} { title := JSValue.str "A", date := JSValue.str "2025-01-01" } "" "Y" :=
  claimC9_amended_time_independent_when_dated {}
    { title := JSValue.str "A", date := JSValue.str "2025-01-01" } "" "X" "Y" (by decide)

/-! ### Claim C10 -/

/-- C10: every payload handed to the external store has `isArchived`
fixed to `false` and the push-to-webflow destination field fixed to
`true`, regardless of the frontmatter; and a document whose
`push_to_webflow` key is absent is not skipped — it is synced with its
remote sync-control switch forced to `true`. -/
theorem claimC10_payload_forces_flags
    (env : Env) (store : Store) (fmX fmY : Frontmatter)
    (htmlX htmlY pX pY : String) (dryRun : Bool) (now : String)
    (c : StoreCall) (pl : Payload)
    (hc : c ∈ (processDoc env store pX fmX htmlX dryRun now).2)
    (hpl : payloadOf c = some pl)
    (habs : fmY.push_to_webflow = JSValue.undefined) :
    pl.isArchived = false ∧ pl.fieldData.pushToWebflow = true
    ∧ (processDoc env store pY fmY htmlY dryRun now).1 ≠ .skipped := by
  have h1 : payloadOf c = some (mkPayload env (normalizeFM fmX) htmlX now) :=
    upsert_trace_payload env store (normalizeFM fmX) htmlX pX dryRun now c hc
  rw [hpl] at h1
  have h2 : pl = mkPayload env (normalizeFM fmX) htmlX now := Option.some.inj h1
  subst h2
  refine ⟨rfl, rfl, ?_⟩
  apply upsert_not_skipped
  simp [normalizeFM, normalizeBool, habs]

/-- Witness for C10: a document with no `push_to_webflow` key, whose
single create call carries the forced flags. -/
theorem claimC10_witness :
    (mkPayload {} (normalizeFM { title := JSValue.str "A" }) "" now0).isArchived = false
    ∧ (mkPayload {} (normalizeFM { title := JSValue.str "A" }) "" now0).fieldData.pushToWebflow
        = true
    ∧ (processDoc {} okStore "posts/a.md" { title := JSValue.str "A" } "" false now0).1
        ≠ .skipped :=
  claimC10_payload_forces_flags {} okStore
    { title := JSValue.str "A" } { title := JSValue.str "A" }
    "" "" "posts/a.md" "posts/a.md" false now0
    (StoreCall.createRecord (mkPayload {} (normalizeFM { title := JSValue.str "A" }) "" now0))
    (mkPayload {} (normalizeFM { title := JSValue.str "A" }) "" now0)
    (by decide) rfl rfl
